import Mathlib

/-!
# Verification of `stats.py` (ballchasing RLCS stats)

A shallow embedding of the single-file ETL script `src/stats.py`, which
fetches per-player movement statistics from the ballchasing API, aggregates
average speed by region, (region, team) and (region, player), reduces each
sample list to a truncated integer mean, and exports the results to CSV
files.

Modelling choices:
* Python `dict` / `defaultdict(list)` objects are modelled as
  insertion-ordered association lists (`List (key × value)`); a key is
  created the first time a sample is appended under it, exactly as
  `defaultdict` does inside `get_stats`.
* Average-speed samples are modelled as exact integers (`Int`); the spec
  itself asks for exact/stable summation.  Python's `int(sum(l) / len(l))`
  is truncation toward zero of the exact quotient, i.e. `Int.tdiv`.
* The external `ballchasing.Api` collaborator and the standard-library
  `ConfigParser` are not part of the repository; they are modelled from the
  spec where a claim needs them.
* File output is modelled by returning the list of `(filename, csv file)`
  pairs the script writes, in the order it writes them.
-/

namespace RlcsStats

/-- A player record as returned by the API for one group: the source reads
`player["name"]`, `player["team"]` and
`player["game_average"]["movement"]["avg_speed"]`.  The nested average-speed
statistic is flattened into the field `avg_speed`. -/
structure Player where
  name : String
  team : String
  avg_speed : Int
deriving DecidableEq

/-- The part of the group record `api.get_group(group_id)` that `get_stats`
uses: the `"players"` list. -/
structure Group where
  players : List Player
deriving DecidableEq

/-- Modelled from the spec: the external `ballchasing.Api` collaborator
(not part of this repository).  Per the spec it is "a collaborator capable
of fetching, for a given group identifier, a list of player records each
exposing a name, a team name, and an average-speed value"; `get_group` is
that fetch. -/
structure Api where
  get_group : String → Group

/-- The hard-coded `RLCS_GROUPS` mapping of region name to list of
ballchasing group identifiers, in source order. -/
def RLCS_GROUPS : List (String × List String) :=
  [("Europe", ["split-1-nak68e78tp", "split-2-b3qwqoey3n", "split-3-onrop1o3xw"]),
   ("North America", ["split-1-8nncsg8300", "split-2-p7l5r6a4g3", "split-3-ehllp9zru7"]),
   ("Oceania", ["split-1-o6t6ng61v5", "split-2-rlol6e1y5i"]),
   ("South America", ["split-1-t6wdw60ecf", "split-2-ldbuw0cdkw"]),
   ("India", ["india-eminku57a9"]),
   ("Indonesia", ["indonesia-8dbfqc21wl"]),
   ("Japan", ["japan-aiz9rm6f5u"]),
   ("Saudi Arabia", ["saudi-arabia-xtdxursxc8"]),
   ("Singapore", ["singapore-l09c6n1hj4"])]

/-- Python dict lookup `d[k]` (as an `Option`) on an insertion-ordered
association list. -/
def dictGet? {β : Type} (d : List (String × β)) (k : String) : Option β :=
  match d with
  | [] => none
  | (k', v) :: d => if k' = k then some v else dictGet? d k

/-- Python dict assignment `d[k] = v`: replaces the value in place if the
key exists (keeping its position) and otherwise appends the key at the end,
matching insertion order. -/
def dictSet {β : Type} (d : List (String × β)) (k : String) (v : β) :
    List (String × β) :=
  match d with
  | [] => [(k, v)]
  | (k', v') :: d => if k' = k then (k', v) :: d else (k', v') :: dictSet d k v

/-- Python `defaultdict(list)` sample append `d[k].append(v)`: a missing key starts
from the empty list. -/
def appendSample (d : List (String × List Int)) (k : String) (v : Int) :
    List (String × List Int) :=
  dictSet d k (((dictGet? d k).getD []) ++ [v])

/-- Python `defaultdict(lambda: defaultdict(list))` append `d[k1][k2].append(v)`:
a missing outer key starts from an empty inner dict. -/
def appendSample2 (d : List (String × List (String × List Int)))
    (k1 k2 : String) (v : Int) : List (String × List (String × List Int)) :=
  dictSet d k1 (appendSample ((dictGet? d k1).getD []) k2 v)

/-- The accumulation state of `get_stats` before the reduction phase: the
three `defaultdict`s `regions`, `teams`, `players`. -/
structure StatsAcc where
  regions : List (String × List Int)
  teams : List (String × List (String × List Int))
  players : List (String × List (String × List Int))
deriving DecidableEq

/-- The body of the inner player loop of `get_stats`: append the player's
average speed to `regions[region]`, `teams[region][player["team"]]` and
`players[region][player["name"]]`. -/
def processPlayer (region : String) (st : StatsAcc) (p : Player) : StatsAcc :=
  { regions := appendSample st.regions region p.avg_speed
    teams := appendSample2 st.teams region p.team p.avg_speed
    players := appendSample2 st.players region p.name p.avg_speed }

/-- The accumulation loop nest of `get_stats`, parametrised by the
region-to-group-ids mapping (the source uses the global `RLCS_GROUPS`):
for each region, for each of its group ids, fetch the group and fold its
players into the state. -/
def accumulate (groups : List (String × List String)) (api : Api) : StatsAcc :=
  groups.foldl
    (fun st e =>
      e.2.foldl
        (fun st group_id =>
          ((api.get_group group_id).players).foldl
            (fun st p => processPlayer e.1 st p) st)
        st)
    ⟨[], [], []⟩

/-- The reduction expression `int(sum(avg_speed) / len(avg_speed))`:
truncated (toward zero) integer mean of a sample list. -/
def intMean (l : List Int) : Int :=
  Int.tdiv l.sum l.length

/-- The reduction loops of `get_stats` replace every stored value of a dict
by `f` of it, iterating `d.items()` and assigning back to the same keys, so
key order is unchanged. -/
def mapValues {β γ : Type} (f : β → γ) (d : List (String × β)) :
    List (String × γ) :=
  d.map (fun kv => (kv.1, f kv.2))

/-- The return value of `get_stats`: the dict
`{"regions": ..., "teams": ..., "players": ...}` of reduced mappings. -/
structure Stats where
  regions : List (String × Int)
  teams : List (String × List (String × Int))
  players : List (String × List (String × Int))
deriving DecidableEq

/-- The function `get_stats` with the region-to-group-ids mapping as a parameter:
accumulate, then reduce every sample list to its truncated integer mean. -/
def get_stats_with (groups : List (String × List String)) (api : Api) :
    Stats :=
  let acc := accumulate groups api
  { regions := mapValues intMean acc.regions
    teams := mapValues (mapValues intMean) acc.teams
    players := mapValues (mapValues intMean) acc.players }

/-- The function `get_stats` as in the source, over the hard-coded `RLCS_GROUPS`. -/
def get_stats (api : Api) : Stats :=
  get_stats_with RLCS_GROUPS api

/-! ## CSV export -/

/-- A CSV cell value: the row dicts built in `export_stats` hold strings
(region, team, player names) and integers (average speeds). -/
inductive Value where
  | str (s : String)
  | int (n : Int)
deriving DecidableEq

/-- A row record passed to `export_to_csv`: a Python dict from field name
to cell value. -/
abbrev Record := List (String × Value)

/-- The sort key `lambda stat: stat["Average speed"]` of `export_to_csv`.
Every row built by `export_stats` carries an integer under
`"Average speed"`; the `0` default is never reached on such rows. -/
def avgSpeedKey (row : Record) : Int :=
  match dictGet? row "Average speed" with
  | some (Value.int n) => n
  | _ => 0

/-- Python `sorted(data, key=lambda stat: stat["Average speed"], reverse=True)`:
Python's `sorted` is a stable sort; with `reverse=True` it is the stable
sort by descending key, i.e. a stable merge sort under the total preorder
"my key is at least yours". -/
def sortByAvgSpeedDesc (data : List Record) : List Record :=
  data.mergeSort (fun a b => decide (avgSpeedKey b ≤ avgSpeedKey a))

/-- A written CSV file: the header row (the `fieldnames`) followed by the
data rows; `DictWriter.writerows` writes each record's values in field
order. -/
structure CsvFile where
  header : List String
  rows : List Record
deriving DecidableEq

/-- The function `export_to_csv(output_csv, data, fieldnames)`: sort the data by
descending average speed and write header plus data rows to the named
file, here modelled as returning the `(filename, file)` pair written. -/
def export_to_csv (output_csv : String) (data : List Record)
    (fieldnames : List String) : String × CsvFile :=
  (output_csv, { header := fieldnames, rows := sortByAvgSpeedDesc data })

/-- The rows `{"Region": region, "Average speed": avg_speed}` built from
`stats["regions"].items()`. -/
def regionsData (stats : Stats) : List Record :=
  stats.regions.map (fun kv =>
    [("Region", Value.str kv.1), ("Average speed", Value.int kv.2)])

/-- The rows `{"Team": team, "Region": region, "Average speed": avg_speed}`
built from `stats["teams"]`, iterating regions then teams. -/
def teamsData (stats : Stats) : List Record :=
  stats.teams.flatMap (fun rkv =>
    rkv.2.map (fun tkv =>
      [("Team", Value.str tkv.1), ("Region", Value.str rkv.1),
       ("Average speed", Value.int tkv.2)]))

/-- The rows of the per-region file `teams-{region}.csv`. -/
def teamsRegionData (inner : List (String × Int)) : List Record :=
  inner.map (fun tkv =>
    [("Team", Value.str tkv.1), ("Average speed", Value.int tkv.2)])

/-- The rows `{"Player": player, "Region": region, "Average speed": ...}`
built from `stats["players"]`, iterating regions then players. -/
def playersData (stats : Stats) : List Record :=
  stats.players.flatMap (fun rkv =>
    rkv.2.map (fun pkv =>
      [("Player", Value.str pkv.1), ("Region", Value.str rkv.1),
       ("Average speed", Value.int pkv.2)]))

/-- The rows of the per-region file `players-{region}.csv`. -/
def playersRegionData (inner : List (String × Int)) : List Record :=
  inner.map (fun pkv =>
    [("Player", Value.str pkv.1), ("Average speed", Value.int pkv.2)])

/-- The function `export_stats`: the five families of `export_to_csv` calls, in source
order — `regions.csv`, `teams.csv`, one `teams-{region}.csv` per region key
of the teams mapping, `players.csv`, and one `players-{region}.csv` per
region key of the players mapping.  The result lists the files written in
the order the source writes them. -/
def export_stats (stats : Stats) : List (String × CsvFile) :=
  [export_to_csv "regions.csv" (regionsData stats) ["Region", "Average speed"],
   export_to_csv "teams.csv" (teamsData stats) ["Team", "Region", "Average speed"]]
  ++ stats.teams.map (fun rkv =>
      export_to_csv ("teams-" ++ rkv.1 ++ ".csv") (teamsRegionData rkv.2)
        ["Team", "Average speed"])
  ++ [export_to_csv "players.csv" (playersData stats)
        ["Player", "Region", "Average speed"]]
  ++ stats.players.map (fun rkv =>
      export_to_csv ("players-" ++ rkv.1 ++ ".csv") (playersRegionData rkv.2)
        ["Player", "Average speed"])

/-! ## Config loading and entry point -/

/-- Modelled from the spec: `ConfigParser().read(CONFIG_FILE)` on the
key-value configuration file.  A missing file is silently ignored by
`ConfigParser.read`, leaving the `DEFAULT` section empty; a present file
contributes its key-value pairs. -/
def configRead (file : Option (List (String × String))) :
    List (String × String) :=
  file.getD []

/-- The function `get_api`: read the configuration and look up
`config["DEFAULT"]["API_KEY"]`.  Modelled from the spec: indexing a missing
key raises `KeyError`, an uncaught failure, modelled as `Except.error`; on
success the source wraps the key in `Api(...)`, and the model returns the
key itself. -/
def get_api (file : Option (List (String × String))) : Except String String :=
  match dictGet? (configRead file) "API_KEY" with
  | some key => Except.ok key
  | none => Except.error "KeyError: API_KEY"

/-- The function `main`: `get_api`, then `get_stats`, then `export_stats`.  The network
behaviour behind the API key is the `fetch` parameter; a failure of
`get_api` propagates and no output is produced. -/
def main (file : Option (List (String × String))) (fetch : String → Group) :
    Except String (List (String × CsvFile)) :=
  match get_api file with
  | Except.error e => Except.error e
  | Except.ok _ => Except.ok (export_stats (get_stats ⟨fetch⟩))

/-- The value of the caller's `data` binding after `export_to_csv` returns,
alongside the file written.  The body only rebinds the local name `data` to
the fresh list built by `sorted` and reads it; no mutating operation is
applied to the argument list or its records, so the caller-visible value is
the argument itself. -/
def export_to_csv_post (output_csv : String) (data : List Record)
    (fieldnames : List String) : (String × CsvFile) × List Record :=
  (export_to_csv output_csv data fieldnames, data)

/-! ## Derived views of the accumulation loop -/

/-- Two-level dict lookup `d[r][t]` as an `Option`. -/
def dictGet2? {β : Type} (d : List (String × List (String × β))) (r t : String) :
    Option β :=
  match dictGet? d r with
  | none => none
  | some inner => dictGet? inner t

/-- The samples list stored under a key, the empty list when the key is
absent (the `defaultdict` reading view). -/
def samplesAt (d : List (String × List Int)) (k : String) : List Int :=
  (dictGet? d k).getD []

/-- The samples list stored under a two-level key. -/
def samplesAt2 (d : List (String × List (String × List Int))) (r t : String) :
    List Int :=
  (dictGet2? d r t).getD []

/-- The sequence of `(region, player)` pairs the loop nest of `get_stats`
visits, in fetch order. -/
def flatPlayers (groups : List (String × List String)) (api : Api) :
    List (String × Player) :=
  groups.flatMap (fun e =>
    e.2.flatMap (fun group_id =>
      ((api.get_group group_id).players).map (fun p => (e.1, p))))

/-- The average speeds accumulated for a region key, read off the flat
visit sequence. -/
def regionSamples (groups : List (String × List String)) (api : Api)
    (r : String) : List Int :=
  (flatPlayers groups api).filterMap
    (fun rp => if rp.1 = r then some rp.2.avg_speed else none)

/-- The average speeds accumulated for a `(region, team)` key. -/
def teamSamples (groups : List (String × List String)) (api : Api)
    (r t : String) : List Int :=
  (flatPlayers groups api).filterMap
    (fun rp => if rp.1 = r ∧ rp.2.team = t then some rp.2.avg_speed else none)

/-- The average speeds accumulated for a `(region, player name)` key. -/
def playerSamples (groups : List (String × List String)) (api : Api)
    (r n : String) : List Int :=
  (flatPlayers groups api).filterMap
    (fun rp => if rp.1 = r ∧ rp.2.name = n then some rp.2.avg_speed else none)

/-- The concatenation, in fetch order, of the average speeds of all players
of all of a region's groups (the spec's description of the accumulated
region list). -/
def regionSpeedsConcat (groups : List (String × List String)) (api : Api)
    (r : String) : List Int :=
  groups.flatMap (fun e =>
    if e.1 = r then
      e.2.flatMap (fun group_id =>
        ((api.get_group group_id).players).map Player.avg_speed)
    else [])

/-! ## Dictionary lemmas -/

theorem dictGet?_dictSet {β : Type} (d : List (String × β)) (k k' : String)
    (v : β) :
    dictGet? (dictSet d k v) k' = if k = k' then some v else dictGet? d k' := by
  induction d with
  | nil =>
    by_cases h : k = k' <;> simp [dictSet, dictGet?, h]
  | cons kv d ih =>
    obtain ⟨k₀, v₀⟩ := kv
    by_cases h₀ : k₀ = k
    · subst h₀
      by_cases h : k₀ = k' <;> simp [dictSet, dictGet?, h]
    · by_cases h : k₀ = k'
      · subst h
        have : ¬ k = k₀ := fun he => h₀ he.symm
        simp [dictSet, dictGet?, h₀, this]
      · simp [dictSet, dictGet?, h₀, h, ih]

theorem dictSet_ne_nil {β : Type} (d : List (String × β)) (k : String) (v : β) :
    dictSet d k v ≠ [] := by
  cases d with
  | nil => simp [dictSet]
  | cons kv d =>
    by_cases h : kv.1 = k <;> simp [dictSet, h]

theorem dictGet?_appendSample (d : List (String × List Int)) (k k' : String)
    (v : Int) :
    dictGet? (appendSample d k v) k'
      = if k = k' then some (samplesAt d k ++ [v]) else dictGet? d k' := by
  by_cases h : k = k' <;>
    simp [appendSample, samplesAt, dictGet?_dictSet, h]

theorem dictGet2?_appendSample2 (d : List (String × List (String × List Int)))
    (k1 k2 k1' k2' : String) (v : Int) :
    dictGet2? (appendSample2 d k1 k2 v) k1' k2'
      = if k1 = k1' ∧ k2 = k2' then some (samplesAt2 d k1 k2 ++ [v])
        else dictGet2? d k1' k2' := by
  by_cases h1 : k1 = k1'
  · subst h1
    by_cases h2 : k2 = k2'
    · subst h2
      cases hinner : dictGet? d k1 with
      | none =>
        simp [appendSample2, dictGet2?, samplesAt2, dictGet?_dictSet, hinner,
          dictGet?_appendSample, samplesAt, dictGet?]
      | some inner =>
        simp [appendSample2, dictGet2?, samplesAt2, dictGet?_dictSet, hinner,
          dictGet?_appendSample, samplesAt]
    · cases hinner : dictGet? d k1 with
      | none =>
        simp [appendSample2, dictGet2?, dictGet?_dictSet, hinner,
          dictGet?_appendSample, h2, dictGet?]
      | some inner =>
        simp [appendSample2, dictGet2?, dictGet?_dictSet, hinner,
          dictGet?_appendSample, h2]
  · simp [appendSample2, dictGet2?, dictGet?_dictSet, h1,
      fun h => h1 (And.left h)]

theorem dictGet?_appendSample2 (d : List (String × List (String × List Int)))
    (k1 k2 k1' : String) (v : Int) :
    dictGet? (appendSample2 d k1 k2 v) k1'
      = if k1 = k1'
        then some (appendSample ((dictGet? d k1).getD []) k2 v)
        else dictGet? d k1' := by
  simp [appendSample2, dictGet?_dictSet]

theorem dictGet?_mapValues {β γ : Type} (f : β → γ) (d : List (String × β))
    (k : String) :
    dictGet? (mapValues f d) k = (dictGet? d k).map f := by
  induction d with
  | nil => simp [mapValues, dictGet?]
  | cons kv d ih =>
    by_cases h : kv.1 = k
    · simp [mapValues, dictGet?, h]
    · simpa [mapValues, dictGet?, h] using ih

theorem dictGet2?_mapValues2 {β γ : Type} (f : β → γ)
    (d : List (String × List (String × β)))
    (r t : String) :
    dictGet2? (mapValues (mapValues f) d) r t = (dictGet2? d r t).map f := by
  cases h : dictGet? d r with
  | none => simp [dictGet2?, dictGet?_mapValues, h]
  | some inner => simp [dictGet2?, dictGet?_mapValues, h, dictGet?_mapValues]

/-! ## Flattening the loop nest -/

theorem foldl_flatMap_eq {α β γ : Type _} (f : γ → β → γ) (g : α → List β)
    (l : List α) (b : γ) :
    (l.flatMap g).foldl f b = l.foldl (fun b a => (g a).foldl f b) b := by
  induction l generalizing b with
  | nil => simp
  | cons a l ih => simp [List.flatMap_cons, List.foldl_append, ih]

theorem accumulate_eq_foldFlat (groups : List (String × List String))
    (api : Api) :
    accumulate groups api
      = (flatPlayers groups api).foldl
          (fun st rp => processPlayer rp.1 st rp.2) ⟨[], [], []⟩ := by
  unfold accumulate flatPlayers
  rw [foldl_flatMap_eq]
  congr 1
  funext st e
  rw [foldl_flatMap_eq]
  congr 1
  funext st group_id
  rw [List.foldl_map]

theorem foldFlat_regions (L : List (String × Player)) (st : StatsAcc) :
    (L.foldl (fun st rp => processPlayer rp.1 st rp.2) st).regions
      = L.foldl (fun d rp => appendSample d rp.1 rp.2.avg_speed) st.regions := by
  induction L generalizing st with
  | nil => rfl
  | cons rp L ih =>
    rw [List.foldl_cons, List.foldl_cons, ih]
    rfl

theorem foldFlat_teams (L : List (String × Player)) (st : StatsAcc) :
    (L.foldl (fun st rp => processPlayer rp.1 st rp.2) st).teams
      = L.foldl (fun d rp => appendSample2 d rp.1 rp.2.team rp.2.avg_speed)
          st.teams := by
  induction L generalizing st with
  | nil => rfl
  | cons rp L ih =>
    rw [List.foldl_cons, List.foldl_cons, ih]
    rfl

theorem foldFlat_players (L : List (String × Player)) (st : StatsAcc) :
    (L.foldl (fun st rp => processPlayer rp.1 st rp.2) st).players
      = L.foldl (fun d rp => appendSample2 d rp.1 rp.2.name rp.2.avg_speed)
          st.players := by
  induction L generalizing st with
  | nil => rfl
  | cons rp L ih =>
    rw [List.foldl_cons, List.foldl_cons, ih]
    rfl

/-! ## Characterising the accumulated dictionaries -/

theorem appendFold_get? {α : Type} (f : α → String) (g : α → Int) (L : List α)
    (d : List (String × List Int)) (r : String) :
    dictGet? (L.foldl (fun d x => appendSample d (f x) (g x)) d) r
      = if (L.filterMap fun x => if f x = r then some (g x) else none) = []
        then dictGet? d r
        else some ((dictGet? d r).getD []
          ++ L.filterMap fun x => if f x = r then some (g x) else none) := by
  induction L generalizing d with
  | nil => simp
  | cons a L ih =>
    rw [List.foldl_cons, ih]
    by_cases hf : f a = r
    · rw [dictGet?_appendSample]
      by_cases hc :
          (L.filterMap fun x => if f x = r then some (g x) else none) = [] <;>
        simp [hf, hc, samplesAt, List.filterMap_cons, List.append_assoc]
    · simp [hf, dictGet?_appendSample, List.filterMap_cons]

theorem appendFold2_get2? {α : Type} (f1 f2 : α → String) (g : α → Int)
    (L : List α) (d : List (String × List (String × List Int)))
    (r t : String) :
    dictGet2? (L.foldl (fun d x => appendSample2 d (f1 x) (f2 x) (g x)) d) r t
      = if (L.filterMap fun x =>
            if f1 x = r ∧ f2 x = t then some (g x) else none) = []
        then dictGet2? d r t
        else some ((dictGet2? d r t).getD []
          ++ L.filterMap fun x =>
              if f1 x = r ∧ f2 x = t then some (g x) else none) := by
  induction L generalizing d with
  | nil => simp
  | cons a L ih =>
    rw [List.foldl_cons, ih]
    by_cases hf : f1 a = r ∧ f2 a = t
    · rw [dictGet2?_appendSample2]
      by_cases hc : (L.filterMap fun x =>
          if f1 x = r ∧ f2 x = t then some (g x) else none) = [] <;>
        simp [hf, hc, samplesAt2, List.filterMap_cons, List.append_assoc]
    · simp [hf, dictGet2?_appendSample2, List.filterMap_cons]

theorem appendFold2_outer_none {α : Type} (f1 f2 : α → String) (g : α → Int)
    (L : List α) (d : List (String × List (String × List Int))) (r : String) :
    dictGet? (L.foldl (fun d x => appendSample2 d (f1 x) (f2 x) (g x)) d) r
        = none
      ↔ (dictGet? d r = none ∧ ∀ x ∈ L, f1 x ≠ r) := by
  induction L generalizing d with
  | nil => simp
  | cons a L ih =>
    rw [List.foldl_cons, ih]
    by_cases hf : f1 a = r
    · simp [dictGet?_appendSample2, hf]
    · simp only [dictGet?_appendSample2, if_neg hf, List.forall_mem_cons]
      constructor
      · rintro ⟨h1, h2⟩
        exact ⟨h1, fun he => hf he, h2⟩
      · rintro ⟨h1, _, h2⟩
        exact ⟨h1, h2⟩

theorem filterMap_if_eq_nil_iff {α β : Type} (P : α → Prop) [DecidablePred P]
    (g : α → β) (L : List α) :
    (L.filterMap fun x => if P x then some (g x) else none) = []
      ↔ ∀ x ∈ L, ¬ P x := by
  rw [List.filterMap_eq_nil_iff]
  constructor
  · intro h x hx hP
    have := h x hx
    simp [hP] at this
  · intro h x hx
    simp [h x hx]

theorem regionsFold_get? (L : List (String × Player))
    (d : List (String × List Int)) (r : String) :
    dictGet? (L.foldl (fun d rp => appendSample d rp.1 rp.2.avg_speed) d) r
      = if (L.filterMap fun rp =>
            if rp.1 = r then some rp.2.avg_speed else none) = []
        then dictGet? d r
        else some ((dictGet? d r).getD []
          ++ L.filterMap fun rp =>
              if rp.1 = r then some rp.2.avg_speed else none) :=
  appendFold_get? (fun rp => rp.1) (fun rp => rp.2.avg_speed) L d r

theorem teamsFold_get2? (L : List (String × Player))
    (d : List (String × List (String × List Int))) (r t : String) :
    dictGet2?
        (L.foldl (fun d rp => appendSample2 d rp.1 rp.2.team rp.2.avg_speed) d)
        r t
      = if (L.filterMap fun rp =>
            if rp.1 = r ∧ rp.2.team = t then some rp.2.avg_speed else none) = []
        then dictGet2? d r t
        else some ((dictGet2? d r t).getD []
          ++ L.filterMap fun rp =>
              if rp.1 = r ∧ rp.2.team = t then some rp.2.avg_speed else none) :=
  appendFold2_get2? (fun rp => rp.1) (fun rp => rp.2.team)
    (fun rp => rp.2.avg_speed) L d r t

theorem playersFold_get2? (L : List (String × Player))
    (d : List (String × List (String × List Int))) (r n : String) :
    dictGet2?
        (L.foldl (fun d rp => appendSample2 d rp.1 rp.2.name rp.2.avg_speed) d)
        r n
      = if (L.filterMap fun rp =>
            if rp.1 = r ∧ rp.2.name = n then some rp.2.avg_speed else none) = []
        then dictGet2? d r n
        else some ((dictGet2? d r n).getD []
          ++ L.filterMap fun rp =>
              if rp.1 = r ∧ rp.2.name = n then some rp.2.avg_speed else none) :=
  appendFold2_get2? (fun rp => rp.1) (fun rp => rp.2.name)
    (fun rp => rp.2.avg_speed) L d r n

theorem teamsFold_outer_none (L : List (String × Player))
    (d : List (String × List (String × List Int))) (r : String) :
    dictGet?
        (L.foldl (fun d rp => appendSample2 d rp.1 rp.2.team rp.2.avg_speed) d)
        r = none
      ↔ (dictGet? d r = none ∧ ∀ rp ∈ L, rp.1 ≠ r) :=
  appendFold2_outer_none (fun rp => rp.1) (fun rp => rp.2.team)
    (fun rp => rp.2.avg_speed) L d r

theorem playersFold_outer_none (L : List (String × Player))
    (d : List (String × List (String × List Int))) (r : String) :
    dictGet?
        (L.foldl (fun d rp => appendSample2 d rp.1 rp.2.name rp.2.avg_speed) d)
        r = none
      ↔ (dictGet? d r = none ∧ ∀ rp ∈ L, rp.1 ≠ r) :=
  appendFold2_outer_none (fun rp => rp.1) (fun rp => rp.2.name)
    (fun rp => rp.2.avg_speed) L d r

theorem accumulate_regions_get? (groups : List (String × List String))
    (api : Api) (r : String) :
    dictGet? (accumulate groups api).regions r
      = if regionSamples groups api r = [] then none
        else some (regionSamples groups api r) := by
  rw [accumulate_eq_foldFlat, foldFlat_regions, regionsFold_get?]
  simp [regionSamples, dictGet?]

theorem accumulate_teams_get2? (groups : List (String × List String))
    (api : Api) (r t : String) :
    dictGet2? (accumulate groups api).teams r t
      = if teamSamples groups api r t = [] then none
        else some (teamSamples groups api r t) := by
  rw [accumulate_eq_foldFlat, foldFlat_teams, teamsFold_get2?]
  simp [teamSamples, dictGet2?, dictGet?]

theorem accumulate_players_get2? (groups : List (String × List String))
    (api : Api) (r n : String) :
    dictGet2? (accumulate groups api).players r n
      = if playerSamples groups api r n = [] then none
        else some (playerSamples groups api r n) := by
  rw [accumulate_eq_foldFlat, foldFlat_players, playersFold_get2?]
  simp [playerSamples, dictGet2?, dictGet?]

theorem accumulate_teams_outer_none (groups : List (String × List String))
    (api : Api) (r : String) :
    dictGet? (accumulate groups api).teams r = none
      ↔ regionSamples groups api r = [] := by
  rw [accumulate_eq_foldFlat, foldFlat_teams, teamsFold_outer_none]
  have h := filterMap_if_eq_nil_iff (fun rp : String × Player => rp.1 = r)
    (fun rp => rp.2.avg_speed) (flatPlayers groups api)
  rw [regionSamples, ← h]
  simp [dictGet?]

theorem accumulate_players_outer_none (groups : List (String × List String))
    (api : Api) (r : String) :
    dictGet? (accumulate groups api).players r = none
      ↔ regionSamples groups api r = [] := by
  rw [accumulate_eq_foldFlat, foldFlat_players, playersFold_outer_none]
  have h := filterMap_if_eq_nil_iff (fun rp : String × Player => rp.1 = r)
    (fun rp => rp.2.avg_speed) (flatPlayers groups api)
  rw [regionSamples, ← h]
  simp [dictGet?]

/-! ## Characterising the reduced dictionaries -/

theorem get_stats_with_regions_get? (groups : List (String × List String))
    (api : Api) (r : String) :
    dictGet? (get_stats_with groups api).regions r
      = if regionSamples groups api r = [] then none
        else some (intMean (regionSamples groups api r)) := by
  show dictGet? (mapValues intMean (accumulate groups api).regions) r = _
  rw [dictGet?_mapValues, accumulate_regions_get?]
  by_cases h : regionSamples groups api r = [] <;> simp [h]

theorem get_stats_with_teams_get2? (groups : List (String × List String))
    (api : Api) (r t : String) :
    dictGet2? (get_stats_with groups api).teams r t
      = if teamSamples groups api r t = [] then none
        else some (intMean (teamSamples groups api r t)) := by
  show dictGet2?
    (mapValues (mapValues intMean) (accumulate groups api).teams) r t = _
  rw [dictGet2?_mapValues2, accumulate_teams_get2?]
  by_cases h : teamSamples groups api r t = [] <;> simp [h]

theorem get_stats_with_players_get2? (groups : List (String × List String))
    (api : Api) (r n : String) :
    dictGet2? (get_stats_with groups api).players r n
      = if playerSamples groups api r n = [] then none
        else some (intMean (playerSamples groups api r n)) := by
  show dictGet2?
    (mapValues (mapValues intMean) (accumulate groups api).players) r n = _
  rw [dictGet2?_mapValues2, accumulate_players_get2?]
  by_cases h : playerSamples groups api r n = [] <;> simp [h]

theorem get_stats_with_teams_outer_none (groups : List (String × List String))
    (api : Api) (r : String) :
    dictGet? (get_stats_with groups api).teams r = none
      ↔ regionSamples groups api r = [] := by
  have h := accumulate_teams_outer_none groups api r
  show dictGet?
    (mapValues (mapValues intMean) (accumulate groups api).teams) r = none ↔ _
  rw [dictGet?_mapValues, ← h]
  cases dictGet? (accumulate groups api).teams r <;> simp

theorem get_stats_with_players_outer_none (groups : List (String × List String))
    (api : Api) (r : String) :
    dictGet? (get_stats_with groups api).players r = none
      ↔ regionSamples groups api r = [] := by
  have h := accumulate_players_outer_none groups api r
  show dictGet?
    (mapValues (mapValues intMean) (accumulate groups api).players) r
      = none ↔ _
  rw [dictGet?_mapValues, ← h]
  cases dictGet? (accumulate groups api).players r <;> simp

/-! ## The region samples as a fetch-order concatenation -/

theorem filterMap_some_comp {α β : Type} (f : α → β) (l : List α) :
    l.filterMap (fun x => some (f x)) = l.map f := by
  induction l with
  | nil => rfl
  | cons a l ih => simp [List.filterMap_cons, ih]

theorem filterMap_region_entry (api : Api) (r rg : String)
    (gids : List String) :
    ((gids.flatMap (fun gid =>
        ((api.get_group gid).players).map (fun p => (rg, p)))).filterMap
      (fun rp => if rp.1 = r then some rp.2.avg_speed else none))
      = if rg = r then
          gids.flatMap (fun gid =>
            ((api.get_group gid).players).map Player.avg_speed)
        else [] := by
  induction gids with
  | nil => simp
  | cons gid gids ih =>
    rw [List.flatMap_cons, List.filterMap_append, ih]
    by_cases he : rg = r
    · simp [he, List.flatMap_cons, List.filterMap_map, Function.comp_def,
        filterMap_some_comp]
    · simp [he, List.filterMap_map, Function.comp_def]

theorem regionSamples_eq_concat (groups : List (String × List String))
    (api : Api) (r : String) :
    regionSamples groups api r = regionSpeedsConcat groups api r := by
  unfold regionSamples flatPlayers regionSpeedsConcat
  induction groups with
  | nil => rfl
  | cons e groups ih =>
    rw [List.flatMap_cons, List.flatMap_cons, List.filterMap_append, ih]
    congr 1
    exact filterMap_region_entry api r e.1 e.2

/-! ## Single-append update equations -/

theorem processPlayer_regions_samples (region : String) (st : StatsAcc)
    (p : Player) (r : String) :
    samplesAt (processPlayer region st p).regions r
      = if region = r then samplesAt st.regions r ++ [p.avg_speed]
        else samplesAt st.regions r := by
  show samplesAt (appendSample st.regions region p.avg_speed) r = _
  by_cases h : region = r <;>
    simp [samplesAt, dictGet?_appendSample, h]

theorem processPlayer_teams_samples (region : String) (st : StatsAcc)
    (p : Player) (r t : String) :
    samplesAt2 (processPlayer region st p).teams r t
      = if region = r ∧ p.team = t then samplesAt2 st.teams r t ++ [p.avg_speed]
        else samplesAt2 st.teams r t := by
  show samplesAt2 (appendSample2 st.teams region p.team p.avg_speed) r t = _
  unfold samplesAt2
  rw [dictGet2?_appendSample2]
  by_cases h : region = r ∧ p.team = t
  · obtain ⟨h1, h2⟩ := h
    subst h1
    subst h2
    rw [if_pos ⟨rfl, rfl⟩, if_pos ⟨rfl, rfl⟩]
    rfl
  · rw [if_neg h, if_neg h]

theorem processPlayer_players_samples (region : String) (st : StatsAcc)
    (p : Player) (r n : String) :
    samplesAt2 (processPlayer region st p).players r n
      = if region = r ∧ p.name = n
        then samplesAt2 st.players r n ++ [p.avg_speed]
        else samplesAt2 st.players r n := by
  show samplesAt2 (appendSample2 st.players region p.name p.avg_speed) r n = _
  unfold samplesAt2
  rw [dictGet2?_appendSample2]
  by_cases h : region = r ∧ p.name = n
  · obtain ⟨h1, h2⟩ := h
    subst h1
    subst h2
    rw [if_pos ⟨rfl, rfl⟩, if_pos ⟨rfl, rfl⟩]
    rfl
  · rw [if_neg h, if_neg h]

/-! ## Non-empty invariants -/

theorem foldAppend2_outer_ne_nil {α : Type} (f1 f2 : α → String)
    (g : α → Int) (L : List α)
    (d : List (String × List (String × List Int)))
    (h : ∀ k inner, dictGet? d k = some inner → inner ≠ []) :
    ∀ k inner,
      dictGet? (L.foldl (fun d x => appendSample2 d (f1 x) (f2 x) (g x)) d) k
          = some inner → inner ≠ [] := by
  induction L generalizing d with
  | nil => exact h
  | cons a L ih =>
    rw [List.foldl_cons]
    apply ih
    intro k inner hk
    rw [dictGet?_appendSample2] at hk
    by_cases hf : f1 a = k
    · rw [if_pos hf] at hk
      injection hk with hk'
      rw [← hk']
      exact dictSet_ne_nil _ _ _
    · rw [if_neg hf] at hk
      exact h _ _ hk

theorem accumulate_teams_inner_ne_nil (groups : List (String × List String))
    (api : Api) :
    ∀ r inner, dictGet? (accumulate groups api).teams r = some inner →
      inner ≠ [] := by
  rw [accumulate_eq_foldFlat, foldFlat_teams]
  exact foldAppend2_outer_ne_nil (fun rp => rp.1) (fun rp => rp.2.team)
    (fun rp => rp.2.avg_speed) (flatPlayers groups api)
    ([] : List (String × List (String × List Int)))
    (fun k inner h => Option.noConfusion h)

theorem accumulate_players_inner_ne_nil (groups : List (String × List String))
    (api : Api) :
    ∀ r inner, dictGet? (accumulate groups api).players r = some inner →
      inner ≠ [] := by
  rw [accumulate_eq_foldFlat, foldFlat_players]
  exact foldAppend2_outer_ne_nil (fun rp => rp.1) (fun rp => rp.2.name)
    (fun rp => rp.2.avg_speed) (flatPlayers groups api)
    ([] : List (String × List (String × List Int)))
    (fun k inner h => Option.noConfusion h)

theorem accumulate_regions_ne_nil (groups : List (String × List String))
    (api : Api) :
    ∀ r l, dictGet? (accumulate groups api).regions r = some l → l ≠ [] := by
  intro r l h
  rw [accumulate_regions_get?] at h
  by_cases hc : regionSamples groups api r = []
  · rw [if_pos hc] at h
    cases h
  · rw [if_neg hc] at h
    injection h with h'
    rw [← h']
    exact hc

theorem accumulate_teams_ne_nil (groups : List (String × List String))
    (api : Api) :
    ∀ r t l, dictGet2? (accumulate groups api).teams r t = some l →
      l ≠ [] := by
  intro r t l h
  rw [accumulate_teams_get2?] at h
  by_cases hc : teamSamples groups api r t = []
  · rw [if_pos hc] at h
    cases h
  · rw [if_neg hc] at h
    injection h with h'
    rw [← h']
    exact hc

theorem accumulate_players_ne_nil (groups : List (String × List String))
    (api : Api) :
    ∀ r n l, dictGet2? (accumulate groups api).players r n = some l →
      l ≠ [] := by
  intro r n l h
  rw [accumulate_players_get2?] at h
  by_cases hc : playerSamples groups api r n = []
  · rw [if_pos hc] at h
    cases h
  · rw [if_neg hc] at h
    injection h with h'
    rw [← h']
    exact hc

/-! ## Groups with no players are no-ops -/

theorem foldGids_filter (api : Api) (region : String) (gids : List String)
    (st : StatsAcc) :
    gids.foldl
        (fun st group_id =>
          ((api.get_group group_id).players).foldl
            (fun st p => processPlayer region st p) st) st
      = (gids.filter
          (fun gid => !((api.get_group gid).players).isEmpty)).foldl
          (fun st group_id =>
            ((api.get_group group_id).players).foldl
              (fun st p => processPlayer region st p) st) st := by
  induction gids generalizing st with
  | nil => rfl
  | cons g gids ih =>
    by_cases hg : ((api.get_group g).players).isEmpty
    · have hnil : (api.get_group g).players = [] := by
        rwa [List.isEmpty_iff] at hg
      rw [List.foldl_cons, hnil, List.foldl_nil, ih, List.filter_cons]
      simp [hg]
    · have hkeep : (!((api.get_group g).players).isEmpty) = true := by
        simp [hg]
      rw [List.foldl_cons, List.filter_cons, if_pos hkeep, List.foldl_cons, ih]

theorem foldGroups_filter (api : Api) (groups : List (String × List String)) :
    ∀ st : StatsAcc,
      groups.foldl
          (fun st e =>
            e.2.foldl
              (fun st group_id =>
                ((api.get_group group_id).players).foldl
                  (fun st p => processPlayer e.1 st p) st) st) st
        = (groups.map (fun e =>
            (e.1, e.2.filter
              (fun gid => !((api.get_group gid).players).isEmpty)))).foldl
            (fun st e =>
              e.2.foldl
                (fun st group_id =>
                  ((api.get_group group_id).players).foldl
                    (fun st p => processPlayer e.1 st p) st) st) st := by
  induction groups with
  | nil => intro st; rfl
  | cons e groups ih =>
    intro st
    rw [List.map_cons, List.foldl_cons, List.foldl_cons, ih]
    congr 1
    exact foldGids_filter api e.1 e.2 st

theorem accumulate_drop_empty_groups (groups : List (String × List String))
    (api : Api) :
    accumulate groups api
      = accumulate
          (groups.map (fun e =>
            (e.1, e.2.filter
              (fun gid => !((api.get_group gid).players).isEmpty)))) api :=
  foldGroups_filter api groups ⟨[], [], []⟩

/-! ## Permuting the fetch order of groups -/

theorem flatPlayers_perm (groups1 groups2 : List (String × List String))
    (api : Api)
    (h : List.Forall₂ (fun e1 e2 => e1.1 = e2.1 ∧ e1.2.Perm e2.2)
      groups1 groups2) :
    (flatPlayers groups1 api).Perm (flatPlayers groups2 api) := by
  unfold flatPlayers
  induction h with
  | nil => simp
  | cons he hrest ih =>
    rw [List.flatMap_cons, List.flatMap_cons]
    refine List.Perm.append ?_ ih
    obtain ⟨h1, h2⟩ := he
    rw [h1]
    exact h2.flatMap_right _

theorem intMean_perm (l1 l2 : List Int) (h : l1.Perm l2) :
    intMean l1 = intMean l2 := by
  unfold intMean
  rw [h.sum_eq, h.length_eq]

/-! ## The sort in `export_to_csv` -/

theorem avgSpeedDesc_trans (a b c : Record)
    (hab : decide (avgSpeedKey b ≤ avgSpeedKey a) = true)
    (hbc : decide (avgSpeedKey c ≤ avgSpeedKey b) = true) :
    decide (avgSpeedKey c ≤ avgSpeedKey a) = true := by
  simp only [decide_eq_true_eq] at hab hbc ⊢
  omega

theorem avgSpeedDesc_total (a b : Record) :
    (decide (avgSpeedKey b ≤ avgSpeedKey a)
      || decide (avgSpeedKey a ≤ avgSpeedKey b)) = true := by
  simp only [Bool.or_eq_true, decide_eq_true_eq]
  omega

theorem sortByAvgSpeedDesc_perm (data : List Record) :
    (sortByAvgSpeedDesc data).Perm data :=
  List.mergeSort_perm data _

theorem sortByAvgSpeedDesc_sorted (data : List Record) :
    (sortByAvgSpeedDesc data).Pairwise
      (fun a b : Record => avgSpeedKey b ≤ avgSpeedKey a) := by
  have h : (sortByAvgSpeedDesc data).Pairwise
      (fun a b : Record =>
        decide (avgSpeedKey b ≤ avgSpeedKey a) = true) :=
    List.sorted_mergeSort avgSpeedDesc_trans avgSpeedDesc_total data
  exact h.imp (by intro a b hb; simpa using hb)

theorem sortByAvgSpeedDesc_filter (data : List Record) (v : Int) :
    (sortByAvgSpeedDesc data).filter (fun row => decide (avgSpeedKey row = v))
      = data.filter (fun row => decide (avgSpeedKey row = v)) := by
  have hsub : List.Sublist
      (data.filter (fun row => decide (avgSpeedKey row = v)))
      (sortByAvgSpeedDesc data) := by
    apply List.sublist_mergeSort avgSpeedDesc_trans avgSpeedDesc_total
    · apply List.pairwise_of_forall_mem_list
      intro a ha b hb
      have hav : avgSpeedKey a = v := by
        simpa using (List.mem_filter.mp ha).2
      have hbv : avgSpeedKey b = v := by
        simpa using (List.mem_filter.mp hb).2
      simp [hav, hbv]
    · exact List.filter_sublist data
  have hperm : ((sortByAvgSpeedDesc data).filter
        (fun row => decide (avgSpeedKey row = v))).Perm
      (data.filter (fun row => decide (avgSpeedKey row = v))) :=
    (sortByAvgSpeedDesc_perm data).filter _
  have hself : (data.filter (fun row => decide (avgSpeedKey row = v))).filter
        (fun row => decide (avgSpeedKey row = v))
      = data.filter (fun row => decide (avgSpeedKey row = v)) :=
    List.filter_eq_self.mpr (fun a ha => (List.mem_filter.mp ha).2)
  have hsub2 : List.Sublist
      (data.filter (fun row => decide (avgSpeedKey row = v)))
      ((sortByAvgSpeedDesc data).filter
        (fun row => decide (avgSpeedKey row = v))) := by
    have := hsub.filter (fun row => decide (avgSpeedKey row = v))
    rwa [hself] at this
  exact (hsub2.eq_of_length hperm.length_eq.symm).symm

/-! ## Concrete instances used by the witnesses -/

/-- A tiny API for witnesses: group `"g1"` holds two players of the same
team with average speeds 100 and 200; every other group is empty. -/
def wApi : Api :=
  ⟨fun gid =>
    if gid = "g1" then
      ⟨[⟨"PlayerA", "Team1", 100⟩, ⟨"PlayerB", "Team1", 200⟩]⟩
    else ⟨[]⟩⟩

/-- A one-region, one-group mapping for witnesses. -/
def wGroups : List (String × List String) :=
  [("Europe", ["g1"])]

/-- A one-region mapping whose only group returns no players. -/
def cexGroups : List (String × List String) :=
  [("Europe", ["empty-group"])]

/-- An API on which every group returns no players. -/
def cexApi : Api :=
  ⟨fun _ => ⟨[]⟩⟩

/-! ## Claims -/

/-- C1: for every key of the three accumulated mappings holding a non-empty
sample list, the reduction phase of `get_stats` replaces the list by the
truncated integer mean of its samples (sum `tdiv` count, toward zero). -/
theorem get_stats_truncated_mean (groups : List (String × List String))
    (api : Api) :
    (∀ k l, dictGet? (accumulate groups api).regions k = some l → l ≠ [] →
      dictGet? (get_stats_with groups api).regions k
        = some (Int.tdiv l.sum l.length))
    ∧ (∀ r t l,
        dictGet2? (accumulate groups api).teams r t = some l → l ≠ [] →
        dictGet2? (get_stats_with groups api).teams r t
          = some (Int.tdiv l.sum l.length))
    ∧ (∀ r n l,
        dictGet2? (accumulate groups api).players r n = some l → l ≠ [] →
        dictGet2? (get_stats_with groups api).players r n
          = some (Int.tdiv l.sum l.length)) := by
  refine ⟨?_, ?_, ?_⟩
  · intro k l h _
    show dictGet? (mapValues intMean (accumulate groups api).regions) k = _
    rw [dictGet?_mapValues, h]
    rfl
  · intro r t l h _
    show dictGet2?
      (mapValues (mapValues intMean) (accumulate groups api).teams) r t = _
    rw [dictGet2?_mapValues2, h]
    rfl
  · intro r n l h _
    show dictGet2?
      (mapValues (mapValues intMean) (accumulate groups api).players) r n = _
    rw [dictGet2?_mapValues2, h]
    rfl

/-- C1 witness: two samples 100 and 200 under the key
`("Europe", "Team1")` reduce to `(100 + 200) tdiv 2 = 150`. -/
theorem get_stats_truncated_mean_witness :
    dictGet2? (get_stats_with wGroups wApi).teams "Europe" "Team1"
      = some (Int.tdiv ([100, 200] : List Int).sum
          ([100, 200] : List Int).length)
    ∧ Int.tdiv ([100, 200] : List Int).sum ([100, 200] : List Int).length
        = 150 :=
  ⟨(get_stats_truncated_mean wGroups wApi).2.1 "Europe" "Team1" [100, 200]
      (by decide) (by decide),
    by decide⟩

/-- C2 counterexample: with one region whose only group returns no players,
the accumulated regions mapping holds no entry at all for that region — in
particular it does not map the key to an empty sample list, contrary to the
claim's wording. -/
theorem empty_group_counterexample :
    dictGet? (accumulate cexGroups cexApi).regions "Europe" = none
    ∧ dictGet? (accumulate cexGroups cexApi).regions "Europe" ≠ some [] := by
  constructor
  · decide
  · decide

/-- C2 amended: a region/group combination returning no players contributes
nothing at all — dropping all groups with an empty player list leaves the
accumulated state unchanged, so no key is created for them (rather than an
empty list), `get_stats` does not raise, and the averaging step never meets
an empty list: every stored sample list is non-empty. -/
theorem empty_groups_contribute_nothing
    (groups : List (String × List String)) (api : Api) :
    accumulate groups api
      = accumulate
          (groups.map (fun e =>
            (e.1, e.2.filter
              (fun gid => !((api.get_group gid).players).isEmpty)))) api
    ∧ (∀ r l,
        dictGet? (accumulate groups api).regions r = some l → l ≠ [])
    ∧ (∀ r t l,
        dictGet2? (accumulate groups api).teams r t = some l → l ≠ [])
    ∧ (∀ r n l,
        dictGet2? (accumulate groups api).players r n = some l → l ≠ []) :=
  ⟨accumulate_drop_empty_groups groups api,
    accumulate_regions_ne_nil groups api,
    accumulate_teams_ne_nil groups api,
    accumulate_players_ne_nil groups api⟩

/-- C2 witness: on the concrete empty-group run the drop-empty-groups
equation is closed, and on the two-player run the accumulated list
`[100, 200]` is non-empty. -/
theorem empty_groups_contribute_nothing_witness :
    accumulate cexGroups cexApi
      = accumulate
          (cexGroups.map (fun e =>
            (e.1, e.2.filter
              (fun gid => !((cexApi.get_group gid).players).isEmpty)))) cexApi
    ∧ ([100, 200] : List Int) ≠ [] :=
  ⟨(empty_groups_contribute_nothing cexGroups cexApi).1,
    (empty_groups_contribute_nothing wGroups wApi).2.1 "Europe" [100, 200]
      (by decide)⟩

/-- C3: the data rows written by `export_to_csv` are a permutation of the
input rows, sorted by descending `"Average speed"`, and rows with equal
`"Average speed"` keep their relative input order (stable sort). -/
theorem export_to_csv_rows_sorted (output_csv : String) (data : List Record)
    (fieldnames : List String) :
    ((export_to_csv output_csv data fieldnames).2.rows).Perm data
    ∧ ((export_to_csv output_csv data fieldnames).2.rows).Pairwise
        (fun a b : Record => avgSpeedKey b ≤ avgSpeedKey a)
    ∧ ∀ v : Int,
        ((export_to_csv output_csv data fieldnames).2.rows).filter
            (fun row => decide (avgSpeedKey row = v))
          = data.filter (fun row => decide (avgSpeedKey row = v)) :=
  ⟨sortByAvgSpeedDesc_perm data, sortByAvgSpeedDesc_sorted data,
    fun v => sortByAvgSpeedDesc_filter data v⟩

/-- C5: each visited player appends its average speed to exactly the three
lists keyed by its region, its (region, team) and its (region, name),
leaving every other list unchanged; consequently the accumulated list for a
region is the concatenation, in fetch order, of the average speeds of all
players of all that region's groups. -/
theorem accumulate_appends_three (groups : List (String × List String))
    (api : Api) :
    (∀ region st p r,
      samplesAt (processPlayer region st p).regions r
        = if region = r then samplesAt st.regions r ++ [p.avg_speed]
          else samplesAt st.regions r)
    ∧ (∀ region st p r t,
        samplesAt2 (processPlayer region st p).teams r t
          = if region = r ∧ p.team = t
            then samplesAt2 st.teams r t ++ [p.avg_speed]
            else samplesAt2 st.teams r t)
    ∧ (∀ region st p r n,
        samplesAt2 (processPlayer region st p).players r n
          = if region = r ∧ p.name = n
            then samplesAt2 st.players r n ++ [p.avg_speed]
            else samplesAt2 st.players r n)
    ∧ (∀ r, samplesAt (accumulate groups api).regions r
        = regionSpeedsConcat groups api r) := by
  refine ⟨processPlayer_regions_samples, processPlayer_teams_samples,
    processPlayer_players_samples, ?_⟩
  intro r
  unfold samplesAt
  rw [accumulate_regions_get?, ← regionSamples_eq_concat]
  by_cases h : regionSamples groups api r = [] <;> simp [h]

/-- C6: when the configuration file is missing, or present without an
`API_KEY` field, `get_api` fails with a `KeyError`, and `main` propagates
that failure without producing any output. -/
theorem get_api_missing_config (file : Option (List (String × String)))
    (h : file = none ∨ dictGet? (configRead file) "API_KEY" = none) :
    get_api file = Except.error "KeyError: API_KEY"
    ∧ ∀ fetch : String → Group,
        main file fetch = Except.error "KeyError: API_KEY" := by
  have hk : dictGet? (configRead file) "API_KEY" = none := by
    rcases h with h | h
    · rw [h]
      rfl
    · exact h
  constructor
  · unfold get_api
    rw [hk]
  · intro fetch
    unfold main get_api
    rw [hk]

/-- C6 witness: a missing configuration file makes `get_api` and `main`
fail with the `KeyError`. -/
theorem get_api_missing_config_witness :
    get_api none = Except.error "KeyError: API_KEY"
    ∧ main none (fun _ => Group.mk []) = Except.error "KeyError: API_KEY" :=
  ⟨(get_api_missing_config none (Or.inl rfl)).1,
    (get_api_missing_config none (Or.inl rfl)).2 (fun _ => Group.mk [])⟩

/-- C9: every key present in the accumulated mappings (outer and inner)
holds a non-empty sample list — keys are only created by appending a sample
— so the division by the sample count never divides by zero; and a region
with no accumulated samples has no key at all. -/
theorem accumulate_keys_nonempty (groups : List (String × List String))
    (api : Api) :
    (∀ r l, dictGet? (accumulate groups api).regions r = some l → l ≠ [])
    ∧ (∀ r inner,
        dictGet? (accumulate groups api).teams r = some inner → inner ≠ [])
    ∧ (∀ r t l,
        dictGet2? (accumulate groups api).teams r t = some l → l ≠ [])
    ∧ (∀ r inner,
        dictGet? (accumulate groups api).players r = some inner → inner ≠ [])
    ∧ (∀ r n l,
        dictGet2? (accumulate groups api).players r n = some l → l ≠ [])
    ∧ (∀ r, regionSamples groups api r = [] →
        dictGet? (accumulate groups api).regions r = none) := by
  refine ⟨accumulate_regions_ne_nil groups api,
    accumulate_teams_inner_ne_nil groups api,
    accumulate_teams_ne_nil groups api,
    accumulate_players_inner_ne_nil groups api,
    accumulate_players_ne_nil groups api, ?_⟩
  intro r h
  rw [accumulate_regions_get?, if_pos h]

/-- C9 witness: on the two-player run the accumulated region list
`[100, 200]` is non-empty, and on the empty-group run the region key is
absent. -/
theorem accumulate_keys_nonempty_witness :
    ([100, 200] : List Int) ≠ []
    ∧ dictGet? (accumulate cexGroups cexApi).regions "Europe" = none :=
  ⟨(accumulate_keys_nonempty wGroups wApi).1 "Europe" [100, 200] (by decide),
    (accumulate_keys_nonempty cexGroups cexApi).2.2.2.2.2 "Europe"
      (by decide)⟩

/-- C10: `export_to_csv` does not mutate its input: the sort happens on the
fresh list returned by `sorted`, only the local binding is rebound, so the
caller-visible `data` after the call is the argument itself while the file
rows are the sorted copy. -/
theorem export_to_csv_input_unchanged (output_csv : String)
    (data : List Record) (fieldnames : List String) :
    (export_to_csv_post output_csv data fieldnames).2 = data
    ∧ (export_to_csv_post output_csv data fieldnames).1
        = export_to_csv output_csv data fieldnames
    ∧ (export_to_csv_post output_csv data fieldnames).1.2.rows
        = sortByAvgSpeedDesc data :=
  ⟨rfl, rfl, rfl⟩

theorem perm_eq_nil_iff {α : Type _} {l1 l2 : List α} (h : l1.Perm l2) :
    l1 = [] ↔ l2 = [] := by
  rw [← List.length_eq_zero, ← List.length_eq_zero, h.length_eq]

/-- Two one-region mappings whose single region fetches the same two groups
in opposite orders, for the C4 witness. -/
def wGroupsA : List (String × List String) :=
  [("Europe", ["g1", "g2"])]

/-- See `wGroupsA`: the same groups fetched in the opposite order. -/
def wGroupsB : List (String × List String) :=
  [("Europe", ["g2", "g1"])]

/-- C4: two runs of `get_stats` that fetch each region's groups in a
different order, with every group returning the same player records, agree
on all three reduced mappings: same region keys and values, same
(region, team) and (region, player) entries, and the same per-region
presence in the nested mappings (equality as Python dicts, which is
insertion-order-blind). -/
theorem get_stats_order_independent
    (groups1 groups2 : List (String × List String)) (api : Api)
    (h : List.Forall₂ (fun e1 e2 => e1.1 = e2.1 ∧ e1.2.Perm e2.2)
      groups1 groups2) :
    (∀ r, dictGet? (get_stats_with groups1 api).regions r
        = dictGet? (get_stats_with groups2 api).regions r)
    ∧ (∀ r, (dictGet? (get_stats_with groups1 api).teams r).isSome
        = (dictGet? (get_stats_with groups2 api).teams r).isSome)
    ∧ (∀ r t, dictGet2? (get_stats_with groups1 api).teams r t
        = dictGet2? (get_stats_with groups2 api).teams r t)
    ∧ (∀ r, (dictGet? (get_stats_with groups1 api).players r).isSome
        = (dictGet? (get_stats_with groups2 api).players r).isSome)
    ∧ (∀ r n, dictGet2? (get_stats_with groups1 api).players r n
        = dictGet2? (get_stats_with groups2 api).players r n) := by
  have hflat := flatPlayers_perm groups1 groups2 api h
  refine ⟨?_, ?_, ?_, ?_, ?_⟩
  · intro r
    have hs : (regionSamples groups1 api r).Perm (regionSamples groups2 api r) :=
      hflat.filterMap _
    rw [get_stats_with_regions_get?, get_stats_with_regions_get?]
    by_cases h1 : regionSamples groups1 api r = []
    · rw [if_pos h1, if_pos ((perm_eq_nil_iff hs).mp h1)]
    · rw [if_neg h1, if_neg (fun h2 => h1 ((perm_eq_nil_iff hs).mpr h2)),
        intMean_perm _ _ hs]
  · intro r
    have hs : (regionSamples groups1 api r).Perm (regionSamples groups2 api r) :=
      hflat.filterMap _
    have hiff : dictGet? (get_stats_with groups1 api).teams r = none
        ↔ dictGet? (get_stats_with groups2 api).teams r = none := by
      rw [get_stats_with_teams_outer_none, get_stats_with_teams_outer_none]
      exact perm_eq_nil_iff hs
    cases h1 : dictGet? (get_stats_with groups1 api).teams r with
    | none => rw [hiff.mp h1]
    | some a =>
      cases h2 : dictGet? (get_stats_with groups2 api).teams r with
      | none => exact absurd (hiff.mpr h2) (by simp [h1])
      | some b => rfl
  · intro r t
    have hs : (teamSamples groups1 api r t).Perm (teamSamples groups2 api r t) :=
      hflat.filterMap _
    rw [get_stats_with_teams_get2?, get_stats_with_teams_get2?]
    by_cases h1 : teamSamples groups1 api r t = []
    · rw [if_pos h1, if_pos ((perm_eq_nil_iff hs).mp h1)]
    · rw [if_neg h1, if_neg (fun h2 => h1 ((perm_eq_nil_iff hs).mpr h2)),
        intMean_perm _ _ hs]
  · intro r
    have hs : (regionSamples groups1 api r).Perm (regionSamples groups2 api r) :=
      hflat.filterMap _
    have hiff : dictGet? (get_stats_with groups1 api).players r = none
        ↔ dictGet? (get_stats_with groups2 api).players r = none := by
      rw [get_stats_with_players_outer_none, get_stats_with_players_outer_none]
      exact perm_eq_nil_iff hs
    cases h1 : dictGet? (get_stats_with groups1 api).players r with
    | none => rw [hiff.mp h1]
    | some a =>
      cases h2 : dictGet? (get_stats_with groups2 api).players r with
      | none => exact absurd (hiff.mpr h2) (by simp [h1])
      | some b => rfl
  · intro r n
    have hs : (playerSamples groups1 api r n).Perm (playerSamples groups2 api r n) :=
      hflat.filterMap _
    rw [get_stats_with_players_get2?, get_stats_with_players_get2?]
    by_cases h1 : playerSamples groups1 api r n = []
    · rw [if_pos h1, if_pos ((perm_eq_nil_iff hs).mp h1)]
    · rw [if_neg h1, if_neg (fun h2 => h1 ((perm_eq_nil_iff hs).mpr h2)),
        intMean_perm _ _ hs]

/-- C4 witness: fetching the two groups of the witness region in either
order yields the same reduced region and team entries. -/
theorem get_stats_order_independent_witness :
    dictGet? (get_stats_with wGroupsA wApi).regions "Europe"
      = dictGet? (get_stats_with wGroupsB wApi).regions "Europe"
    ∧ dictGet2? (get_stats_with wGroupsA wApi).teams "Europe" "Team1"
      = dictGet2? (get_stats_with wGroupsB wApi).teams "Europe" "Team1" := by
  have hf : List.Forall₂ (fun e1 e2 => e1.1 = e2.1 ∧ e1.2.Perm e2.2)
      wGroupsA wGroupsB :=
    List.Forall₂.cons ⟨rfl, List.Perm.swap "g2" "g1" []⟩ List.Forall₂.nil
  exact ⟨(get_stats_order_independent wGroupsA wGroupsB wApi hf).1 "Europe",
    (get_stats_order_independent wGroupsA wGroupsB wApi hf).2.2.1
      "Europe" "Team1"⟩

/-- C8: `export_stats` writes exactly one global file per aggregation level
with the claimed headers — `regions.csv`, `teams.csv`, `players.csv` — plus
one `teams-{region}.csv` per region key of the teams mapping and one
`players-{region}.csv` per region key of the players mapping, and nothing
else, in source order. -/
theorem export_stats_file_names (stats : Stats) :
    (export_stats stats).map (fun fc => (fc.1, fc.2.header))
      = [("regions.csv", ["Region", "Average speed"]),
         ("teams.csv", ["Team", "Region", "Average speed"])]
        ++ stats.teams.map (fun rkv =>
            ("teams-" ++ rkv.1 ++ ".csv", ["Team", "Average speed"]))
        ++ [("players.csv", ["Player", "Region", "Average speed"])]
        ++ stats.players.map (fun rkv =>
            ("players-" ++ rkv.1 ++ ".csv", ["Player", "Average speed"])) := by
  unfold export_stats export_to_csv
  simp only [List.map_append, List.map_cons, List.map_nil, List.map_map]
  rfl

/-! ## Row extraction for the round-trip claim -/

theorem regionsData_extract (stats : Stats) :
    (regionsData stats).map
        (fun row => (dictGet? row "Region", avgSpeedKey row))
      = stats.regions.map (fun kv => (some (Value.str kv.1), kv.2)) := by
  unfold regionsData
  rw [List.map_map]
  apply List.map_congr_left
  intro kv _
  rfl

theorem regionsData_speeds (stats : Stats) :
    (regionsData stats).map avgSpeedKey = stats.regions.map Prod.snd := by
  unfold regionsData
  rw [List.map_map]
  apply List.map_congr_left
  intro kv _
  rfl

theorem teamsData_extract (stats : Stats) :
    (teamsData stats).map
        (fun row => (dictGet? row "Team", dictGet? row "Region",
          avgSpeedKey row))
      = stats.teams.flatMap (fun rkv =>
          rkv.2.map (fun tkv =>
            (some (Value.str tkv.1), some (Value.str rkv.1), tkv.2))) := by
  unfold teamsData
  rw [List.map_flatMap]
  congr 1
  funext rkv
  rw [List.map_map]
  apply List.map_congr_left
  intro tkv _
  rfl

theorem teamsData_speeds (stats : Stats) :
    (teamsData stats).map avgSpeedKey
      = stats.teams.flatMap (fun rkv => rkv.2.map Prod.snd) := by
  unfold teamsData
  rw [List.map_flatMap]
  congr 1
  funext rkv
  rw [List.map_map]
  apply List.map_congr_left
  intro tkv _
  rfl

theorem playersData_extract (stats : Stats) :
    (playersData stats).map
        (fun row => (dictGet? row "Player", dictGet? row "Region",
          avgSpeedKey row))
      = stats.players.flatMap (fun rkv =>
          rkv.2.map (fun pkv =>
            (some (Value.str pkv.1), some (Value.str rkv.1), pkv.2))) := by
  unfold playersData
  rw [List.map_flatMap]
  congr 1
  funext rkv
  rw [List.map_map]
  apply List.map_congr_left
  intro pkv _
  rfl

theorem playersData_speeds (stats : Stats) :
    (playersData stats).map avgSpeedKey
      = stats.players.flatMap (fun rkv => rkv.2.map Prod.snd) := by
  unfold playersData
  rw [List.map_flatMap]
  congr 1
  funext rkv
  rw [List.map_map]
  apply List.map_congr_left
  intro pkv _
  rfl

theorem teamsRegionData_extract (inner : List (String × Int)) :
    (teamsRegionData inner).map
        (fun row => (dictGet? row "Team", avgSpeedKey row))
      = inner.map (fun tkv => (some (Value.str tkv.1), tkv.2)) := by
  unfold teamsRegionData
  rw [List.map_map]
  apply List.map_congr_left
  intro tkv _
  rfl

theorem teamsRegionData_speeds (inner : List (String × Int)) :
    (teamsRegionData inner).map avgSpeedKey = inner.map Prod.snd := by
  unfold teamsRegionData
  rw [List.map_map]
  apply List.map_congr_left
  intro tkv _
  rfl

theorem playersRegionData_extract (inner : List (String × Int)) :
    (playersRegionData inner).map
        (fun row => (dictGet? row "Player", avgSpeedKey row))
      = inner.map (fun pkv => (some (Value.str pkv.1), pkv.2)) := by
  unfold playersRegionData
  rw [List.map_map]
  apply List.map_congr_left
  intro pkv _
  rfl

theorem playersRegionData_speeds (inner : List (String × Int)) :
    (playersRegionData inner).map avgSpeedKey = inner.map Prod.snd := by
  unfold playersRegionData
  rw [List.map_map]
  apply List.map_congr_left
  intro pkv _
  rfl

/-- A small reduced-stats value for the C7 witness. -/
def wStats : Stats :=
  { regions := [("Europe", 150)]
    teams := [("Europe", [("Team1", 150)])]
    players := [("Europe", [("PlayerA", 100), ("PlayerB", 200)])] }

/-- C7: each file written by `export_stats` round-trips — the multiset of
(key fields, `"Average speed"`) pairs read back from its data rows is a
permutation of the entries of the reduced mapping it was produced from, and
re-summing the `"Average speed"` column reproduces the sum of that
aggregate. -/
theorem export_stats_round_trip (stats : Stats) :
    (export_to_csv "regions.csv" (regionsData stats) ["Region", "Average speed"]
        ∈ export_stats stats
      ∧ (((export_to_csv "regions.csv" (regionsData stats)
            ["Region", "Average speed"]).2.rows).map
            (fun row => (dictGet? row "Region", avgSpeedKey row))).Perm
          (stats.regions.map (fun kv => (some (Value.str kv.1), kv.2)))
      ∧ (((export_to_csv "regions.csv" (regionsData stats)
            ["Region", "Average speed"]).2.rows).map avgSpeedKey).sum
          = (stats.regions.map Prod.snd).sum)
    ∧ (export_to_csv "teams.csv" (teamsData stats)
          ["Team", "Region", "Average speed"] ∈ export_stats stats
      ∧ (((export_to_csv "teams.csv" (teamsData stats)
            ["Team", "Region", "Average speed"]).2.rows).map
            (fun row => (dictGet? row "Team", dictGet? row "Region",
              avgSpeedKey row))).Perm
          (stats.teams.flatMap (fun rkv =>
            rkv.2.map (fun tkv =>
              (some (Value.str tkv.1), some (Value.str rkv.1), tkv.2))))
      ∧ (((export_to_csv "teams.csv" (teamsData stats)
            ["Team", "Region", "Average speed"]).2.rows).map avgSpeedKey).sum
          = (stats.teams.flatMap (fun rkv => rkv.2.map Prod.snd)).sum)
    ∧ (export_to_csv "players.csv" (playersData stats)
          ["Player", "Region", "Average speed"] ∈ export_stats stats
      ∧ (((export_to_csv "players.csv" (playersData stats)
            ["Player", "Region", "Average speed"]).2.rows).map
            (fun row => (dictGet? row "Player", dictGet? row "Region",
              avgSpeedKey row))).Perm
          (stats.players.flatMap (fun rkv =>
            rkv.2.map (fun pkv =>
              (some (Value.str pkv.1), some (Value.str rkv.1), pkv.2))))
      ∧ (((export_to_csv "players.csv" (playersData stats)
            ["Player", "Region", "Average speed"]).2.rows).map
            avgSpeedKey).sum
          = (stats.players.flatMap (fun rkv => rkv.2.map Prod.snd)).sum)
    ∧ (∀ rkv ∈ stats.teams,
        export_to_csv ("teams-" ++ rkv.1 ++ ".csv") (teamsRegionData rkv.2)
            ["Team", "Average speed"] ∈ export_stats stats
        ∧ (((export_to_csv ("teams-" ++ rkv.1 ++ ".csv")
              (teamsRegionData rkv.2) ["Team", "Average speed"]).2.rows).map
              (fun row => (dictGet? row "Team", avgSpeedKey row))).Perm
            (rkv.2.map (fun tkv => (some (Value.str tkv.1), tkv.2)))
        ∧ (((export_to_csv ("teams-" ++ rkv.1 ++ ".csv")
              (teamsRegionData rkv.2) ["Team", "Average speed"]).2.rows).map
              avgSpeedKey).sum
            = (rkv.2.map Prod.snd).sum)
    ∧ (∀ rkv ∈ stats.players,
        export_to_csv ("players-" ++ rkv.1 ++ ".csv")
            (playersRegionData rkv.2) ["Player", "Average speed"]
            ∈ export_stats stats
        ∧ (((export_to_csv ("players-" ++ rkv.1 ++ ".csv")
              (playersRegionData rkv.2)
              ["Player", "Average speed"]).2.rows).map
              (fun row => (dictGet? row "Player", avgSpeedKey row))).Perm
            (rkv.2.map (fun pkv => (some (Value.str pkv.1), pkv.2)))
        ∧ (((export_to_csv ("players-" ++ rkv.1 ++ ".csv")
              (playersRegionData rkv.2)
              ["Player", "Average speed"]).2.rows).map avgSpeedKey).sum
            = (rkv.2.map Prod.snd).sum) := by
  refine ⟨⟨?_, ?_, ?_⟩, ⟨?_, ?_, ?_⟩, ⟨?_, ?_, ?_⟩, ?_, ?_⟩
  · show _ ∈ ([_, _] ++ _ ++ [_] ++ _ : List (String × CsvFile))
    exact List.mem_append_left _ (List.mem_append_left _
      (List.mem_append_left _ (List.mem_cons_self _ _)))
  · have hp := (sortByAvgSpeedDesc_perm (regionsData stats)).map
      (fun row => (dictGet? row "Region", avgSpeedKey row))
    rw [regionsData_extract] at hp
    exact hp
  · have hp := ((sortByAvgSpeedDesc_perm (regionsData stats)).map
      avgSpeedKey).sum_eq
    rw [regionsData_speeds] at hp
    exact hp
  · show _ ∈ ([_, _] ++ _ ++ [_] ++ _ : List (String × CsvFile))
    exact List.mem_append_left _ (List.mem_append_left _
      (List.mem_append_left _
        (List.mem_cons_of_mem _ (List.mem_cons_self _ _))))
  · have hp := (sortByAvgSpeedDesc_perm (teamsData stats)).map
      (fun row => (dictGet? row "Team", dictGet? row "Region",
        avgSpeedKey row))
    rw [teamsData_extract] at hp
    exact hp
  · have hp := ((sortByAvgSpeedDesc_perm (teamsData stats)).map
      avgSpeedKey).sum_eq
    rw [teamsData_speeds] at hp
    exact hp
  · show _ ∈ ([_, _] ++ _ ++ [_] ++ _ : List (String × CsvFile))
    exact List.mem_append_left _
      (List.mem_append_right _ (List.mem_cons_self _ _))
  · have hp := (sortByAvgSpeedDesc_perm (playersData stats)).map
      (fun row => (dictGet? row "Player", dictGet? row "Region",
        avgSpeedKey row))
    rw [playersData_extract] at hp
    exact hp
  · have hp := ((sortByAvgSpeedDesc_perm (playersData stats)).map
      avgSpeedKey).sum_eq
    rw [playersData_speeds] at hp
    exact hp
  · intro rkv hrkv
    refine ⟨?_, ?_, ?_⟩
    · show _ ∈ ([_, _] ++ _ ++ [_] ++ _ : List (String × CsvFile))
      exact List.mem_append_left _ (List.mem_append_left _
        (List.mem_append_right _ (List.mem_map_of_mem _ hrkv)))
    · have hp := (sortByAvgSpeedDesc_perm (teamsRegionData rkv.2)).map
        (fun row => (dictGet? row "Team", avgSpeedKey row))
      rw [teamsRegionData_extract] at hp
      exact hp
    · have hp := ((sortByAvgSpeedDesc_perm (teamsRegionData rkv.2)).map
        avgSpeedKey).sum_eq
      rw [teamsRegionData_speeds] at hp
      exact hp
  · intro rkv hrkv
    refine ⟨?_, ?_, ?_⟩
    · show _ ∈ ([_, _] ++ _ ++ [_] ++ _ : List (String × CsvFile))
      exact List.mem_append_right _ (List.mem_map_of_mem _ hrkv)
    · have hp := (sortByAvgSpeedDesc_perm (playersRegionData rkv.2)).map
        (fun row => (dictGet? row "Player", avgSpeedKey row))
      rw [playersRegionData_extract] at hp
      exact hp
    · have hp := ((sortByAvgSpeedDesc_perm (playersRegionData rkv.2)).map
        avgSpeedKey).sum_eq
      rw [playersRegionData_speeds] at hp
      exact hp

/-- C7 witness: on a concrete reduced-stats value, the per-region teams
file of `"Europe"` is written, its rows round-trip to the inner mapping,
and its speed column sums to the aggregate sum. -/
theorem export_stats_round_trip_witness :
    ("Europe", [("Team1", 150)]) ∈ wStats.teams
    ∧ (export_to_csv ("teams-" ++ "Europe" ++ ".csv")
        (teamsRegionData [("Team1", 150)]) ["Team", "Average speed"]
        ∈ export_stats wStats
      ∧ (((export_to_csv ("teams-" ++ "Europe" ++ ".csv")
            (teamsRegionData [("Team1", 150)])
            ["Team", "Average speed"]).2.rows).map
            (fun row => (dictGet? row "Team", avgSpeedKey row))).Perm
          ([("Team1", 150)].map (fun tkv => (some (Value.str tkv.1), tkv.2)))
      ∧ (((export_to_csv ("teams-" ++ "Europe" ++ ".csv")
            (teamsRegionData [("Team1", 150)])
            ["Team", "Average speed"]).2.rows).map avgSpeedKey).sum
          = ([("Team1", 150)].map Prod.snd).sum) :=
  ⟨by decide,
    (export_stats_round_trip wStats).2.2.2.1 ("Europe", [("Team1", 150)])
      (by decide)⟩

end RlcsStats
